import Mathlib

/-!
Verification development for the hybrid phishing-URL decision pipeline
(backend/app.py and backend/feature_extraction.py).

Strings are modelled as lists of characters.  Python floats are modelled
as exact rational numbers.  The Python standard-library function
urllib.parse.urlparse, an external dependency of the repository, is
modelled after the CPython urlsplit algorithm (security-patched 3.9+
line): leading C0-control-or-space characters are stripped, tab, CR and
LF are removed, the scheme is split off when the prefix before the first
colon is a well-formed scheme, the network location is delimited by the
first of the characters slash, question mark or hash after a leading
double slash, and a ValueError (modelled as an Except error) is raised
when the network location contains an unmatched square bracket.  The
NFKC netloc check and the bracketed-host content validation of newer
CPython versions concern only exotic inputs no claim touches and are
omitted; character class tests (digits, letters, lowercasing) are
modelled for the ASCII range.
-/

namespace Phish

/-- Split a list of characters at every character satisfying p, keeping
empty segments, mirroring the Python str.split method with a one
character separator (and re.split with a single character class). -/
def splitOnPred (p : Char → Bool) : List Char → List (List Char)
  | [] => [[]]
  | c :: rest =>
    match splitOnPred p rest with
    | [] => if p c then [[], []] else [[c]]
    | t :: ts => if p c then [] :: t :: ts else (c :: t) :: ts

/-- Fuel-driven worker for countSubstr; the fuel is an upper bound on the
number of characters still to be scanned, making the recursion
structural so that proofs can evaluate it by kernel reduction. -/
def countSubstrAux (w : List Char) : Nat → List Char → Nat
  | 0, _ => 0
  | _ + 1, [] => 0
  | fuel + 1, c :: rest =>
    if w.isPrefixOf (c :: rest) then
      1 + countSubstrAux w fuel (rest.drop (w.length - 1))
    else
      countSubstrAux w fuel rest

/-- Number of non-overlapping occurrences of w in s, scanning from the
left, mirroring the Python str.count method. -/
def countSubstr (w s : List Char) : Nat :=
  if w = [] then s.length + 1 else countSubstrAux w s.length s

/-- Substring test mirroring the Python in operator on strings: true
when w occurs contiguously inside s (the empty list occurs in every
list). -/
def isSubstr (w : List Char) : List Char → Bool
  | [] => w.isEmpty
  | c :: rest => w.isPrefixOf (c :: rest) || isSubstr w rest

/-- Characters admissible in a URL scheme, as in urllib.parse. -/
def schemeChars : List Char :=
  "abcdefghijklmnopqrstuvwxyzABCDEFGHIJKLMNOPQRSTUVWXYZ0123456789+-.".toList

/-- Result record of the modelled urlparse call: scheme, netloc, path,
params, query and fragment components. -/
structure ParsedUrl where
  scheme : List Char
  netloc : List Char
  path : List Char
  params : List Char
  query : List Char
  fragment : List Char
deriving DecidableEq, Repr

/-- Input sanitisation of urlsplit: strip leading C0 control or space
characters, then remove every tab, carriage return and line feed. -/
def sanitizeUrl (url : List Char) : List Char :=
  (url.dropWhile fun c => c.toNat ≤ 32).filter
    fun c => ¬ (c = '\t' ∨ c = '\r' ∨ c = '\n')

/-- Scheme recognition of urlsplit: when a colon occurs at a positive
index, the first character is an ASCII letter and every character
before the colon is a scheme character, the scheme is the lowercased
prefix and the remainder follows the colon; otherwise the scheme is
empty and the input is unchanged. -/
def splitScheme (url : List Char) : List Char × List Char :=
  let pre := url.takeWhile (· ≠ ':')
  if pre.length < url.length ∧ pre ≠ [] ∧
      (url.headI.isAlpha) ∧ pre.all (· ∈ schemeChars) then
    (pre.map Char.toLower, url.drop (pre.length + 1))
  else
    ([], url)

/-- Split off the fragment after the first hash character, as the
str.partition call of urlsplit does. -/
def splitFragment (u : List Char) : List Char × List Char :=
  if '#' ∈ u then (u.takeWhile (· ≠ '#'), (u.dropWhile (· ≠ '#')).drop 1)
  else (u, [])

/-- Split off the query after the first question mark, as the
str.partition call of urlsplit does. -/
def splitQuery (u : List Char) : List Char × List Char :=
  if '?' ∈ u then (u.takeWhile (· ≠ '?'), (u.dropWhile (· ≠ '?')).drop 1)
  else (u, [])

/-- Delimiter predicate ending the network location. -/
def netlocDelim (c : Char) : Bool := c = '/' ∨ c = '?' ∨ c = '#'

/-- Parameter splitting of urlparse: when the path contains a semicolon,
the part of the last path segment from its first semicolon on is moved
out of the path into the params component. -/
def splitparams (path : List Char) : List Char × List Char :=
  if ';' ∈ path then
    if '/' ∈ path then
      let suf := (path.reverse.takeWhile (· ≠ '/')).reverse
      let pre := (path.reverse.dropWhile (· ≠ '/')).reverse
      if ';' ∈ suf then
        (pre ++ suf.takeWhile (· ≠ ';'), (suf.dropWhile (· ≠ ';')).drop 1)
      else (path, [])
    else (path.takeWhile (· ≠ ';'), (path.dropWhile (· ≠ ';')).drop 1)
  else (path, [])

/-- Model of urllib.parse.urlparse as used by the repository; an error
value models the ValueError raised on a netloc with an unmatched square
bracket.  The params component is split out of the path exactly as the
urlparse wrapper around urlsplit does. -/
def pyUrlparse (url : List Char) : Except Unit ParsedUrl :=
  let u1 := sanitizeUrl url
  let su := splitScheme u1
  let scheme := su.1
  let u2 := su.2
  if u2.take 2 = ['/', '/'] then
    let rest := u2.drop 2
    let netloc := rest.takeWhile fun c => ¬ netlocDelim c
    let u3 := rest.dropWhile fun c => ¬ netlocDelim c
    if ('[' ∈ netloc ∧ ']' ∉ netloc) ∨ (']' ∈ netloc ∧ '[' ∉ netloc) then
      .error ()
    else
      let fu := splitFragment u3
      let qu := splitQuery fu.1
      let pp := splitparams qu.1
      .ok ⟨scheme, netloc, pp.1, pp.2, qu.2, fu.2⟩
  else
    let fu := splitFragment u2
    let qu := splitQuery fu.1
    let pp := splitparams qu.1
    .ok ⟨scheme, [], pp.1, pp.2, qu.2, fu.2⟩

/-- Feature (1) UrlLength: length of the URL. -/
def get_url_length (url : List Char) : Int :=
  url.length

/-- Feature (2) NumDots: number of dots in the URL. -/
def get_num_dots (url : List Char) : Int :=
  url.count '.'

/-- Feature (3) SubdomainLevel: dots in the hostname minus one, floored
at zero, with fallback 0 when parsing fails or the host is empty. -/
def get_subdomain_level (url : List Char) : Int :=
  match pyUrlparse url with
  | .error _ => 0
  | .ok p =>
    if p.netloc = [] then 0
    else if 0 < p.netloc.count '.' then (p.netloc.count '.' : Int) - 1 else 0

/-- Feature (4) PathLevel: number of slashes in the path, 0 for an empty
or root path, with fallback 0 when parsing fails. -/
def get_path_level (url : List Char) : Int :=
  match pyUrlparse url with
  | .error _ => 0
  | .ok p =>
    if p.path = [] ∨ p.path = ['/'] then 0 else p.path.count '/'

/-- Features (5-10): NumDash, NumDashInHostname, AtSymbol, TildeSymbol,
NumUnderscore, NumPercent, computed from the URL and its hostname; a
parse failure propagates since the source has no local handler here. -/
def get_symbol_counts (url : List Char) : Except Unit (List (String × Int)) := do
  let p ← pyUrlparse url
  pure [("NumDash", (url.count '-' : Int)),
        ("NumDashInHostname", (p.netloc.count '-' : Int)),
        ("AtSymbol", if '@' ∈ url then 1 else 0),
        ("TildeSymbol", if '~' ∈ url then 1 else 0),
        ("NumUnderscore", (url.count '_' : Int)),
        ("NumPercent", (url.count '%' : Int))]

/-- Features (11-13): NumQueryComponents, NumAmpersand, NumHash; the
query component count is the number of ampersand-separated segments of
a non-empty query, and the hash flag records a non-empty fragment. -/
def get_query_and_fragment_info (url : List Char) :
    Except Unit (List (String × Int)) := do
  let p ← pyUrlparse url
  let q := p.query
  let nqc : Int := if q = [] then 0 else (splitOnPred (· = '&') q).length
  pure [("NumQueryComponents", nqc),
        ("NumAmpersand", (q.count '&' : Int)),
        ("NumHash", if p.fragment = [] then 0 else 1)]

/-- Feature (14) NumNumericChars: count of digits in the whole URL. -/
def get_num_numeric_chars (url : List Char) : Int :=
  url.countP (·.isDigit)

/-- Feature (15) NoHttps: 1 when the scheme differs from https. -/
def check_https (url : List Char) : Except Unit Int := do
  let p ← pyUrlparse url
  pure (if p.scheme ≠ "https".toList then 1 else 0)

/-- Feature (16) RandomString: 1 when some slash-separated path segment
is longer than 15 characters and contains no digit. -/
def check_random_string (url : List Char) : Except Unit Int := do
  let p ← pyUrlparse url
  pure (if (splitOnPred (· = '/') p.path).any
        (fun seg => 15 < seg.length ∧ ¬ seg.any (·.isDigit)) then 1 else 0)

/-- Decide whether a character group consists of one to three digits,
one dotted-quad group of the IPv4 regular expression. -/
def isDigitGroup (g : List Char) : Bool :=
  1 ≤ g.length ∧ g.length ≤ 3 ∧ g.all (·.isDigit)

/-- Full anchored match of the regular expression for a dotted quad of
one-to-three digit groups, used on the hostname by both the extractor
and the rule engine. -/
def isDottedQuad (host : List Char) : Bool :=
  match splitOnPred (· = '.') host with
  | [a, b, c, d] => isDigitGroup a ∧ isDigitGroup b ∧ isDigitGroup c ∧ isDigitGroup d
  | _ => false

/-- Feature (17) IpAddress: 1 when the netloc matches the dotted-quad
pattern; a parse failure propagates. -/
def check_ip_address (url : List Char) : Except Unit Int := do
  let p ← pyUrlparse url
  pure (if isDottedQuad p.netloc then 1 else 0)

/-- Feature (18) DomainInSubdomains: with at least three dot-separated
hostname labels, 1 when the second-to-last label also occurs among the
earlier labels; fallback 0 on a parse failure. -/
def check_domain_in_subdomains (url : List Char) : Int :=
  match pyUrlparse url with
  | .error _ => 0
  | .ok p =>
    let parts := splitOnPred (· = '.') p.netloc
    if 3 ≤ parts.length then
      let base := (parts.reverse.drop 1).headI
      if base ∈ parts.dropLast.dropLast then 1 else 0
    else 0

/-- Feature (19) DomainInPaths: 1 when the base domain label (the
second-to-last dot-separated hostname label, or the whole host when
there are fewer than two labels) occurs as a substring of the path;
fallback 0 on a parse failure. -/
def check_domain_in_paths (url : List Char) : Int :=
  match pyUrlparse url with
  | .error _ => 0
  | .ok p =>
    let parts := splitOnPred (· = '.') p.netloc
    let base := if 2 ≤ parts.length then (parts.reverse.drop 1).headI else p.netloc
    if isSubstr base p.path then 1 else 0

/-- Feature (20) HttpsInHostname: 1 when the lowercased hostname
contains the string https. -/
def check_https_in_hostname (url : List Char) : Except Unit Int := do
  let p ← pyUrlparse url
  pure (if isSubstr ("https".toList) (p.netloc.map Char.toLower) then 1 else 0)

/-- Feature (21) HostnameLength. -/
def get_hostname_length (url : List Char) : Except Unit Int := do
  let p ← pyUrlparse url
  pure p.netloc.length

/-- Feature (22) PathLength. -/
def get_path_length (url : List Char) : Except Unit Int := do
  let p ← pyUrlparse url
  pure p.path.length

/-- Feature (23) QueryLength. -/
def get_query_length (url : List Char) : Except Unit Int := do
  let p ← pyUrlparse url
  pure p.query.length

/-- Feature (24) DoubleSlashInPath: 1 when the path contains a double
slash. -/
def get_double_slash_in_path (url : List Char) : Except Unit Int := do
  let p ← pyUrlparse url
  pure (if isSubstr ("//".toList) p.path then 1 else 0)

/-- Fixed list of sensitive words counted by feature (25). -/
def sensitiveWords : List (List Char) :=
  ["login".toList, "verify".toList, "update".toList, "account".toList,
   "bank".toList, "secure".toList, "paypal".toList, "amazon".toList,
   "ebay".toList, "signin".toList]

/-- Feature (25) NumSensitiveWords: summed non-overlapping occurrence
counts of the sensitive words in the lowercased URL. -/
def get_num_sensitive_words (url : List Char) : Int :=
  (sensitiveWords.map fun w => countSubstr w (url.map Char.toLower)).sum

/-- Fixed list of brand names checked by feature (26). -/
def commonBrands : List (List Char) :=
  ["paypal".toList, "google".toList, "amazon".toList,
   "microsoft".toList, "apple".toList]

/-- Loop body of check_embedded_brand_name: for each brand in order,
when the brand is one of the split parts, the hostname is parsed and 1
is returned when the brand is not a substring of the hostname but is a
substring of the lowercased URL; otherwise the next brand is tried. -/
def brandLoop (url urlLower : List Char) (parts : List (List Char)) :
    List (List Char) → Except Unit Int
  | [] => .ok 0
  | b :: bs =>
    if b ∈ parts then do
      let p ← pyUrlparse url
      if ¬ isSubstr b p.netloc ∧ isSubstr b urlLower then .ok 1
      else brandLoop url urlLower parts bs
    else brandLoop url urlLower parts bs

/-- Feature (26) EmbeddedBrandName: brand-spoofing heuristic splitting
the lowercased URL on slash, dot and dash. -/
def check_embedded_brand_name (url : List Char) : Except Unit Int :=
  let urlLower := url.map Char.toLower
  let parts := splitOnPred (fun c => c = '/' ∨ c = '.' ∨ c = '-') urlLower
  brandLoop url urlLower parts commonBrands

/-- Sentinel used for every feature that needs page content or external
data not derivable from the URL string. -/
def PLACEHOLDER_VALUE : Int := -1

/-- Features (27-42): placeholders for page-content-based features. -/
def get_content_based_features : List (String × Int) :=
  [("PctExtHyperlinks", PLACEHOLDER_VALUE),
   ("PctExtResourceUrls", PLACEHOLDER_VALUE),
   ("ExtFavicon", PLACEHOLDER_VALUE),
   ("InsecureForms", PLACEHOLDER_VALUE),
   ("RelativeFormAction", PLACEHOLDER_VALUE),
   ("ExtFormAction", PLACEHOLDER_VALUE),
   ("AbnormalFormAction", PLACEHOLDER_VALUE),
   ("PctNullSelfRedirectHyperlinks", PLACEHOLDER_VALUE),
   ("FrequentDomainNameMismatch", PLACEHOLDER_VALUE),
   ("FakeLinkInStatusBar", PLACEHOLDER_VALUE),
   ("RightClickDisabled", PLACEHOLDER_VALUE),
   ("PopUpWindow", PLACEHOLDER_VALUE),
   ("SubmitInfoToEmail", PLACEHOLDER_VALUE),
   ("IframeOrFrame", PLACEHOLDER_VALUE),
   ("MissingTitle", PLACEHOLDER_VALUE),
   ("ImagesOnlyInForm", PLACEHOLDER_VALUE)]

/-- Features (43-48): placeholders for real-time features. -/
def get_realtime_features : List (String × Int) :=
  [("SubdomainLevelRT", PLACEHOLDER_VALUE),
   ("UrlLengthRT", PLACEHOLDER_VALUE),
   ("PctExtResourceUrlsRT", PLACEHOLDER_VALUE),
   ("AbnormalExtFormActionR", PLACEHOLDER_VALUE),
   ("ExtMetaScriptLinkRT", PLACEHOLDER_VALUE),
   ("PctExtNullSelfRedirectHyperlinksRT", PLACEHOLDER_VALUE)]

/-- Main extractor: builds the 48-entry ordered feature mapping in the
insertion order of the source; the computation propagates an error
exactly when one of the feature computations without a local handler
raises, which happens at the first such call, check_https. -/
def extract_features_from_url (url : List Char) :
    Except Unit (List (String × Int)) := do
  let urlLength := get_url_length url
  let numDots := get_num_dots url
  let subdomainLevel := get_subdomain_level url
  let pathLevel := get_path_level url
  let numNumeric := get_num_numeric_chars url
  let noHttps ← check_https url
  let hostnameLength ← get_hostname_length url
  let pathLength ← get_path_length url
  let queryLength ← get_query_length url
  let doubleSlash ← get_double_slash_in_path url
  let symbolCounts ← get_symbol_counts url
  let queryInfo ← get_query_and_fragment_info url
  let randomString ← check_random_string url
  let ipAddress ← check_ip_address url
  let domInSub := check_domain_in_subdomains url
  let domInPath := check_domain_in_paths url
  let httpsInHost ← check_https_in_hostname url
  let numSensitive := get_num_sensitive_words url
  let embeddedBrand ← check_embedded_brand_name url
  pure ([("UrlLength", urlLength),
         ("NumDots", numDots),
         ("SubdomainLevel", subdomainLevel),
         ("PathLevel", pathLevel),
         ("NumNumericChars", numNumeric),
         ("NoHttps", noHttps),
         ("HostnameLength", hostnameLength),
         ("PathLength", pathLength),
         ("QueryLength", queryLength),
         ("DoubleSlashInPath", doubleSlash)]
        ++ symbolCounts
        ++ queryInfo
        ++ [("RandomString", randomString),
            ("IpAddress", ipAddress),
            ("DomainInSubdomains", domInSub),
            ("DomainInPaths", domInPath),
            ("HttpsInHostname", httpsInHost),
            ("NumSensitiveWords", numSensitive),
            ("EmbeddedBrandName", embeddedBrand)]
        ++ get_content_based_features
        ++ get_realtime_features)

/-- Adjusted decision threshold of the orchestrator, the module global
ML_THRESHOLD of app.py; the float literal 0.58 is modelled as the exact
rational. -/
def ML_THRESHOLD : ℚ := 58 / 100

/-- Rule engine of app.py: the at-sign check, then the raw length
check, then the dotted-quad hostname check, each returning immediately
when it fires; the hostname parse has no local handler, so a parse
failure propagates. -/
def rule_based_check (url : List Char) : Except Unit (Bool × Option String) :=
  if '@' ∈ url then
    .ok (true, some "Rule-Based (Contains \x27@\x27 symbol for obfuscation)")
  else if 75 < url.length then
    .ok (true, some "Rule-Based (URL is excessively long)")
  else do
    let p ← pyUrlparse url
    if isDottedQuad p.netloc then
      pure (true, some "Rule-Based (Hostname is an IP address)")
    else
      pure (false, none)

/-- Order the raw feature mapping by the configured feature name list,
as the list comprehension of ml_based_prediction does; the error value
carries the first name whose lookup raises KeyError. -/
def buildVector (raw : List (String × Int)) : List String → Except String (List Int)
  | [] => .ok []
  | n :: ns =>
    match raw.lookup n with
    | none => .error n
    | some v => (buildVector raw ns).map (v :: ·)

/-- Message returned when the model or the feature metadata is not
loaded (the Python truthiness test also treats an empty feature name
list as not loaded). -/
def notLoadedMsg : String := "ML model or feature metadata not loaded."

/-- Message returned on a KeyError for a feature name the model expects
but extraction did not produce; the KeyError argument prints quoted. -/
def missingMsg (n : String) : String :=
  "Missing feature required by model: \x27" ++ n ++ "\x27"

/-- Classifier branch of app.py, with the process-wide globals (loaded
model, feature name list, threshold) passed as parameters; the abstract
model function stands for the composite predict_proba call yielding the
probability of the phishing class.  The Except error models the
exception propagating when feature extraction raises. -/
def ml_based_prediction (model : Option (List Int → ℚ))
    (feature_names : Option (List String)) (threshold : ℚ)
    (url : List Char) : Except Unit (String × ℚ × String) :=
  match model, feature_names with
  | some m, some names =>
    if names = [] then .ok ("error", 0, notLoadedMsg)
    else do
      let raw ← extract_features_from_url url
      match buildVector raw names with
      | .error n => pure ("error", 0, missingMsg n)
      | .ok vec =>
        let proba := m vec
        pure (if threshold ≤ proba then "phishing" else "safe", proba,
              "ML Model Prediction")
  | _, _ => .ok ("error", 0, notLoadedMsg)

/-- Response of the predict route: a JSON body with prediction, reason
and phishing_proba fields, or an error body with an HTTP status. -/
inductive ApiResponse where
  | ok (prediction : String) (reason : Option String) (phishing_proba : Option ℚ)
  | err (status : Nat) (message : String)
deriving DecidableEq, Repr

/-- Round to four decimal places with ties to even, the behaviour of
the Python round builtin, modelled over exact rationals. -/
def pyRound4 (q : ℚ) : ℚ :=
  let x := q * 10000
  let f := ⌊x⌋
  let r := x - f
  let n : Int :=
    if r < 1 / 2 then f
    else if 1 / 2 < r then f + 1
    else if f % 2 = 0 then f else f + 1
  (n : ℚ) / 10000

/-- Decision orchestration of the predict route of app.py, after the
request body checks, with the process-wide globals passed as
parameters: the rule engine runs first and short-circuits with a
phishing verdict carrying no probability; otherwise the classifier
branch runs, its error result becomes a 500 response, and a scored
result is thresholded with the rounded probability attached.  An
Except error models an exception propagating out of the handler. -/
def predict (model : Option (List Int → ℚ))
    (feature_names : Option (List String)) (threshold : ℚ)
    (url : List Char) : Except Unit ApiResponse := do
  let rb ← rule_based_check url
  if rb.1 then
    pure (.ok "phishing" rb.2 none)
  else do
    let mlr ← ml_based_prediction model feature_names threshold url
    if mlr.1 = "error" then
      pure (.err 500 mlr.2.2)
    else
      pure (.ok mlr.1 (some mlr.2.2) (some (pyRound4 mlr.2.1)))

/-- The 48 feature names in the order extract_features_from_url
produces them. -/
def featureSchema48 : List String :=
  ["UrlLength", "NumDots", "SubdomainLevel", "PathLevel",
   "NumNumericChars", "NoHttps", "HostnameLength", "PathLength",
   "QueryLength", "DoubleSlashInPath", "NumDash", "NumDashInHostname",
   "AtSymbol", "TildeSymbol", "NumUnderscore", "NumPercent",
   "NumQueryComponents", "NumAmpersand", "NumHash", "RandomString",
   "IpAddress", "DomainInSubdomains", "DomainInPaths",
   "HttpsInHostname", "NumSensitiveWords", "EmbeddedBrandName",
   "PctExtHyperlinks", "PctExtResourceUrls", "ExtFavicon",
   "InsecureForms", "RelativeFormAction", "ExtFormAction",
   "AbnormalFormAction", "PctNullSelfRedirectHyperlinks",
   "FrequentDomainNameMismatch", "FakeLinkInStatusBar",
   "RightClickDisabled", "PopUpWindow", "SubmitInfoToEmail",
   "IframeOrFrame", "MissingTitle", "ImagesOnlyInForm",
   "SubdomainLevelRT", "UrlLengthRT", "PctExtResourceUrlsRT",
   "AbnormalExtFormActionR", "ExtMetaScriptLinkRT",
   "PctExtNullSelfRedirectHyperlinksRT"]

/-- Names of the 22 placeholder features standing for page content or
real-time signals. -/
def placeholderNames : List String :=
  (get_content_based_features ++ get_realtime_features).map Prod.fst

/-- Concrete feature list that extraction yields for the empty URL,
recorded as a test fixture for closed instantiations. -/
def nilUrlFeatures : List (String × Int) :=
  [("UrlLength", 0), ("NumDots", 0), ("SubdomainLevel", 0), ("PathLevel", 0),
   ("NumNumericChars", 0), ("NoHttps", 1), ("HostnameLength", 0),
   ("PathLength", 0), ("QueryLength", 0), ("DoubleSlashInPath", 0),
   ("NumDash", 0), ("NumDashInHostname", 0), ("AtSymbol", 0),
   ("TildeSymbol", 0), ("NumUnderscore", 0), ("NumPercent", 0),
   ("NumQueryComponents", 0), ("NumAmpersand", 0), ("NumHash", 0),
   ("RandomString", 0), ("IpAddress", 0), ("DomainInSubdomains", 0),
   ("DomainInPaths", 1), ("HttpsInHostname", 0), ("NumSensitiveWords", 0),
   ("EmbeddedBrandName", 0), ("PctExtHyperlinks", -1),
   ("PctExtResourceUrls", -1), ("ExtFavicon", -1), ("InsecureForms", -1),
   ("RelativeFormAction", -1), ("ExtFormAction", -1),
   ("AbnormalFormAction", -1), ("PctNullSelfRedirectHyperlinks", -1),
   ("FrequentDomainNameMismatch", -1), ("FakeLinkInStatusBar", -1),
   ("RightClickDisabled", -1), ("PopUpWindow", -1),
   ("SubmitInfoToEmail", -1), ("IframeOrFrame", -1), ("MissingTitle", -1),
   ("ImagesOnlyInForm", -1), ("SubdomainLevelRT", -1), ("UrlLengthRT", -1),
   ("PctExtResourceUrlsRT", -1), ("AbnormalExtFormActionR", -1),
   ("ExtMetaScriptLinkRT", -1), ("PctExtNullSelfRedirectHyperlinksRT", -1)]

instance {ε α : Type} [DecidableEq ε] [DecidableEq α] : DecidableEq (Except ε α) :=
  fun a b =>
    match a, b with
    | .ok x, .ok y =>
      if h : x = y then .isTrue (by rw [h]) else .isFalse (by simp [h])
    | .error e, .error f =>
      if h : e = f then .isTrue (by rw [h]) else .isFalse (by simp [h])
    | .ok _, .error _ => .isFalse (by simp)
    | .error _, .ok _ => .isFalse (by simp)

/-- Reduction of a bind on a successful Except value. -/
@[simp] theorem except_ok_bind {ε α β : Type} (a : α) (f : α → Except ε β) :
    (Except.ok a >>= f) = f a := rfl

/-- Reduction of a bind on a failed Except value. -/
@[simp] theorem except_error_bind {ε α β : Type} (e : ε) (f : α → Except ε β) :
    ((Except.error e : Except ε α) >>= f) = .error e := rfl

/-- Pure in the Except monad is the ok constructor. -/
@[simp] theorem except_pure_eq_ok {ε α : Type} (a : α) :
    (pure a : Except ε α) = .ok a := rfl

/-- The splitter never returns an empty list of segments. -/
theorem splitOnPred_ne_nil (p : Char → Bool) (l : List Char) :
    splitOnPred p l ≠ [] := by
  induction l with
  | nil => simp [splitOnPred]
  | cons c rest ih =>
    cases h : splitOnPred p rest with
    | nil => exact absurd h ih
    | cons t ts =>
      simp only [splitOnPred, h]
      split <;> simp

/-- The number of segments produced by the splitter is the number of
separator characters plus one. -/
theorem splitOnPred_length (p : Char → Bool) (l : List Char) :
    (splitOnPred p l).length = l.countP p + 1 := by
  induction l with
  | nil => simp [splitOnPred]
  | cons c rest ih =>
    cases h : splitOnPred p rest with
    | nil => exact absurd h (splitOnPred_ne_nil p rest)
    | cons t ts =>
      rw [h] at ih
      simp only [splitOnPred, h, List.countP_cons]
      split <;> rename_i hc <;> simp [hc] at ih ⊢ <;> omega

/-- Counting a character is counting the predicate of being that
character. -/
theorem count_eq_countP (a : Char) (l : List Char) :
    l.count a = l.countP (fun c => c = a) := by
  induction l with
  | nil => rfl
  | cons c rest ih =>
    simp only [List.count_cons, List.countP_cons, ih]
    by_cases h : c = a <;> simp [h]

/-- An if-then-else of zero and one is nonnegative. -/
theorem ite_01_nonneg (c : Prop) [Decidable c] :
    (0 : Int) ≤ if c then 1 else 0 := by
  split <;> norm_num

/-- UrlLength is nonnegative. -/
theorem get_url_length_nonneg (url : List Char) : 0 ≤ get_url_length url := by
  unfold get_url_length
  exact Int.natCast_nonneg _

/-- NumDots is nonnegative. -/
theorem get_num_dots_nonneg (url : List Char) : 0 ≤ get_num_dots url := by
  unfold get_num_dots
  exact Int.natCast_nonneg _

/-- SubdomainLevel is nonnegative. -/
theorem get_subdomain_level_nonneg (url : List Char) :
    0 ≤ get_subdomain_level url := by
  unfold get_subdomain_level
  cases pyUrlparse url with
  | error e => norm_num
  | ok p =>
    simp only
    split
    · norm_num
    · split <;> omega

/-- PathLevel is nonnegative. -/
theorem get_path_level_nonneg (url : List Char) : 0 ≤ get_path_level url := by
  unfold get_path_level
  cases pyUrlparse url with
  | error e => norm_num
  | ok p =>
    simp only
    split
    · norm_num
    · exact Int.natCast_nonneg _

/-- NumNumericChars is nonnegative. -/
theorem get_num_numeric_chars_nonneg (url : List Char) :
    0 ≤ get_num_numeric_chars url := by
  unfold get_num_numeric_chars
  exact Int.natCast_nonneg _

/-- NumSensitiveWords is nonnegative. -/
theorem get_num_sensitive_words_nonneg (url : List Char) :
    0 ≤ get_num_sensitive_words url := by
  unfold get_num_sensitive_words
  exact Int.natCast_nonneg _

/-- DomainInSubdomains is nonnegative. -/
theorem check_domain_in_subdomains_nonneg (url : List Char) :
    0 ≤ check_domain_in_subdomains url := by
  unfold check_domain_in_subdomains
  cases pyUrlparse url with
  | error e => norm_num
  | ok p =>
    simp only
    split
    · exact ite_01_nonneg _
    · norm_num

/-- DomainInPaths is nonnegative. -/
theorem check_domain_in_paths_nonneg (url : List Char) :
    0 ≤ check_domain_in_paths url := by
  unfold check_domain_in_paths
  cases pyUrlparse url with
  | error e => norm_num
  | ok p => exact ite_01_nonneg _

/-- The brand loop always succeeds once the URL parses, and yields zero
or one. -/
theorem brandLoop_ok (url lo : List Char) (pa : List (List Char))
    (p : ParsedUrl) (hp : pyUrlparse url = .ok p) :
    ∀ bs : List (List Char), ∃ k : Int,
      brandLoop url lo pa bs = .ok k ∧ (k = 0 ∨ k = 1) := by
  intro bs
  induction bs with
  | nil => exact ⟨0, rfl, Or.inl rfl⟩
  | cons b rest ih =>
    obtain ⟨k, hk, hk01⟩ := ih
    by_cases hb : b ∈ pa
    · simp only [brandLoop, if_pos hb, hp, except_ok_bind]
      split
      · exact ⟨1, rfl, Or.inr rfl⟩
      · exact ⟨k, hk, hk01⟩
    · simp only [brandLoop, if_neg hb]
      exact ⟨k, hk, hk01⟩

/-- When the URL parses, extraction succeeds and produces the 48
features in insertion order; the embedded-brand value is abstracted as
a zero-or-one value since its computation inspects substring
membership. -/
theorem extract_features_ok (url : List Char) (p : ParsedUrl)
    (hp : pyUrlparse url = .ok p) :
    ∃ k : Int, (k = 0 ∨ k = 1) ∧ extract_features_from_url url = .ok
      [("UrlLength", get_url_length url),
       ("NumDots", get_num_dots url),
       ("SubdomainLevel", get_subdomain_level url),
       ("PathLevel", get_path_level url),
       ("NumNumericChars", get_num_numeric_chars url),
       ("NoHttps", if p.scheme ≠ "https".toList then 1 else 0),
       ("HostnameLength", (p.netloc.length : Int)),
       ("PathLength", (p.path.length : Int)),
       ("QueryLength", (p.query.length : Int)),
       ("DoubleSlashInPath", if isSubstr "//".toList p.path then 1 else 0),
       ("NumDash", (url.count '-' : Int)),
       ("NumDashInHostname", (p.netloc.count '-' : Int)),
       ("AtSymbol", if '@' ∈ url then 1 else 0),
       ("TildeSymbol", if '~' ∈ url then 1 else 0),
       ("NumUnderscore", (url.count '_' : Int)),
       ("NumPercent", (url.count '%' : Int)),
       ("NumQueryComponents",
         if p.query = [] then 0
         else ((splitOnPred (· = '&') p.query).length : Int)),
       ("NumAmpersand", (p.query.count '&' : Int)),
       ("NumHash", if p.fragment = [] then 0 else 1),
       ("RandomString",
         if (splitOnPred (· = '/') p.path).any
             (fun seg => 15 < seg.length ∧ ¬ seg.any (·.isDigit))
         then 1 else 0),
       ("IpAddress", if isDottedQuad p.netloc then 1 else 0),
       ("DomainInSubdomains", check_domain_in_subdomains url),
       ("DomainInPaths", check_domain_in_paths url),
       ("HttpsInHostname",
         if isSubstr "https".toList (p.netloc.map Char.toLower) then 1 else 0),
       ("NumSensitiveWords", get_num_sensitive_words url),
       ("EmbeddedBrandName", k),
       ("PctExtHyperlinks", -1),
       ("PctExtResourceUrls", -1),
       ("ExtFavicon", -1),
       ("InsecureForms", -1),
       ("RelativeFormAction", -1),
       ("ExtFormAction", -1),
       ("AbnormalFormAction", -1),
       ("PctNullSelfRedirectHyperlinks", -1),
       ("FrequentDomainNameMismatch", -1),
       ("FakeLinkInStatusBar", -1),
       ("RightClickDisabled", -1),
       ("PopUpWindow", -1),
       ("SubmitInfoToEmail", -1),
       ("IframeOrFrame", -1),
       ("MissingTitle", -1),
       ("ImagesOnlyInForm", -1),
       ("SubdomainLevelRT", -1),
       ("UrlLengthRT", -1),
       ("PctExtResourceUrlsRT", -1),
       ("AbnormalExtFormActionR", -1),
       ("ExtMetaScriptLinkRT", -1),
       ("PctExtNullSelfRedirectHyperlinksRT", -1)] := by
  obtain ⟨k, hk, hk01⟩ := brandLoop_ok url (url.map Char.toLower)
    (splitOnPred (fun c => c = '/' ∨ c = '.' ∨ c = '-') (url.map Char.toLower))
    p hp commonBrands
  refine ⟨k, hk01, ?_⟩
  simp only [extract_features_from_url, check_https, get_hostname_length,
    get_path_length, get_query_length, get_double_slash_in_path,
    get_symbol_counts, get_query_and_fragment_info, check_random_string,
    check_ip_address, check_https_in_hostname, check_embedded_brand_name,
    hp, except_ok_bind, except_pure_eq_ok, hk,
    get_content_based_features, get_realtime_features, PLACEHOLDER_VALUE,
    List.cons_append, List.nil_append]

/-- When the URL fails to parse, extraction propagates the error, since
the scheme check has no local exception handler. -/
theorem extract_features_error (url : List Char)
    (hp : pyUrlparse url = .error ()) :
    extract_features_from_url url = .error () := by
  simp only [extract_features_from_url, check_https, hp, except_error_bind]

/-- C1: for every URL containing the at-sign, the endpoint returns the
phishing verdict with the rule-based obfuscation reason and a null
probability field, for every loaded model, feature list and threshold,
so the classifier and the extractor are never consulted. -/
theorem c1_at_symbol_rule_short_circuits
    (model : Option (List Int → ℚ)) (feature_names : Option (List String))
    (threshold : ℚ) (url : List Char) (h : '@' ∈ url) :
    predict model feature_names threshold url =
      .ok (.ok "phishing"
        (some "Rule-Based (Contains \x27@\x27 symbol for obfuscation)") none) := by
  simp only [predict, rule_based_check, if_pos h, except_ok_bind]
  simp

/-- Closed instance of c1_at_symbol_rule_short_circuits at a concrete
URL, model, feature list and threshold. -/
theorem c1_witness :
    ('@' ∈ "a@b".toList) ∧
    predict (some fun _ => 0) (some ["UrlLength"]) ML_THRESHOLD "a@b".toList =
      .ok (.ok "phishing"
        (some "Rule-Based (Contains \x27@\x27 symbol for obfuscation)") none) :=
  ⟨by decide,
   c1_at_symbol_rule_short_circuits (some fun _ => 0) (some ["UrlLength"])
     ML_THRESHOLD "a@b".toList (by decide)⟩

/-- C2: the length rule has second priority: for every URL longer than
75 characters in which the higher-priority at-sign rule does not match,
the endpoint returns the phishing verdict with the length reason and no
probability, for every model, feature list and threshold, so the later
IP rule and feature extraction are skipped. -/
theorem c2_length_rule_priority
    (model : Option (List Int → ℚ)) (feature_names : Option (List String))
    (threshold : ℚ) (url : List Char)
    (h1 : '@' ∉ url) (h2 : 75 < url.length) :
    predict model feature_names threshold url =
      .ok (.ok "phishing" (some "Rule-Based (URL is excessively long)") none) := by
  simp only [predict, rule_based_check, if_neg h1, if_pos h2, except_ok_bind]
  simp

/-- Closed instance of c2_length_rule_priority at a concrete
80-character URL whose host is also an IP address, showing the length
rule wins over the later IP rule. -/
theorem c2_witness :
    ('@' ∉ "http://1.2.3.4/aaaaaaaaaaaaaaaaaaaaaaaaaaaaaaaaaaaaaaaaaaaaaaaaaaaaaaaaaaaaaaaaa".toList ∧
     75 < "http://1.2.3.4/aaaaaaaaaaaaaaaaaaaaaaaaaaaaaaaaaaaaaaaaaaaaaaaaaaaaaaaaaaaaaaaaa".toList.length) ∧
    predict (some fun _ => 0) none ML_THRESHOLD
        "http://1.2.3.4/aaaaaaaaaaaaaaaaaaaaaaaaaaaaaaaaaaaaaaaaaaaaaaaaaaaaaaaaaaaaaaaaa".toList =
      .ok (.ok "phishing" (some "Rule-Based (URL is excessively long)") none) :=
  ⟨⟨by decide, by decide⟩,
   c2_length_rule_priority (some fun _ => 0) none ML_THRESHOLD _
     (by decide) (by decide)⟩

/-- C3: for every URL whose parsed host matches the dotted-quad pattern
of four one-to-three digit groups (with no bounds check on the values)
and on which neither earlier rule matches, the endpoint returns the
phishing verdict via the IP rule with no probability, for every model,
feature list and threshold. -/
theorem c3_ip_rule_fires
    (model : Option (List Int → ℚ)) (feature_names : Option (List String))
    (threshold : ℚ) (url : List Char) (p : ParsedUrl)
    (hp : pyUrlparse url = .ok p) (hq : isDottedQuad p.netloc = true)
    (h1 : '@' ∉ url) (h2 : url.length ≤ 75) :
    predict model feature_names threshold url =
      .ok (.ok "phishing" (some "Rule-Based (Hostname is an IP address)") none) := by
  have h2' : ¬ 75 < url.length := by omega
  simp only [predict, rule_based_check, if_neg h1, if_neg h2', hp,
    except_ok_bind, hq, except_pure_eq_ok]
  simp

/-- Closed instance of c3_ip_rule_fires at the out-of-range dotted quad
999.999.999.999, which the pattern accepts since it only counts
digits. -/
theorem c3_witness :
    (pyUrlparse "http://999.999.999.999".toList =
      .ok ⟨"http".toList, "999.999.999.999".toList, [], [], [], []⟩ ∧
     isDottedQuad "999.999.999.999".toList = true) ∧
    predict (some fun _ => 0) none ML_THRESHOLD "http://999.999.999.999".toList =
      .ok (.ok "phishing" (some "Rule-Based (Hostname is an IP address)") none) :=
  ⟨⟨by decide, by decide⟩,
   c3_ip_rule_fires (some fun _ => 0) none ML_THRESHOLD _
     ⟨"http".toList, "999.999.999.999".toList, [], [], [], []⟩
     (by decide) (by decide) (by decide) (by decide)⟩

/-- C4: evaluation showing the code does not strip the port before the
host heuristics: for http://1.2.3.4:8080/ the parsed netloc keeps the
port, the IpAddress feature is 0 and no rule fires, although the
hostname proper is the IP address 1.2.3.4. -/
theorem c4_port_not_stripped_eval :
    pyUrlparse "http://1.2.3.4:8080/".toList =
      .ok ⟨"http".toList, "1.2.3.4:8080".toList, "/".toList, [], [], []⟩ ∧
    check_ip_address "http://1.2.3.4:8080/".toList = .ok 0 ∧
    rule_based_check "http://1.2.3.4:8080/".toList = .ok (false, none) :=
  ⟨by decide, by decide, by decide⟩

/-- Evaluation of the extractor on the empty URL, shared by closed
instantiations below. -/
theorem extract_features_nil :
    extract_features_from_url [] = .ok nilUrlFeatures := by decide

/-- C5: when no rule has fired and the model and feature list are
loaded, extraction succeeded and every configured name is present, the
verdict compares the model probability with the threshold: at or above
the threshold the verdict is phishing, below it the verdict is safe,
with the probability and the model-prediction reason returned. -/
theorem c5_threshold_decision
    (m : List Int → ℚ) (names : List String) (threshold : ℚ)
    (url : List Char) (raw : List (String × Int)) (vec : List Int)
    (hn : names ≠ [])
    (hx : extract_features_from_url url = .ok raw)
    (hv : buildVector raw names = .ok vec) :
    (threshold ≤ m vec →
      ml_based_prediction (some m) (some names) threshold url =
        .ok ("phishing", m vec, "ML Model Prediction")) ∧
    (m vec < threshold →
      ml_based_prediction (some m) (some names) threshold url =
        .ok ("safe", m vec, "ML Model Prediction")) := by
  constructor
  · intro hge
    simp only [ml_based_prediction, if_neg hn, hx, except_ok_bind, hv,
      if_pos hge, except_pure_eq_ok]
  · intro hlt
    have hnle : ¬ threshold ≤ m vec := not_le.mpr hlt
    simp only [ml_based_prediction, if_neg hn, hx, except_ok_bind, hv,
      if_neg hnle, except_pure_eq_ok]

/-- Closed instances of c5_threshold_decision at the default threshold
0.58: a mocked classifier returning probability 0.60 yields phishing,
one returning 0.50 yields safe. -/
theorem c5_witness :
    ml_based_prediction (some fun _ => (3 : ℚ) / 5) (some ["UrlLength"])
        ML_THRESHOLD [] = .ok ("phishing", 3 / 5, "ML Model Prediction") ∧
    ml_based_prediction (some fun _ => (1 : ℚ) / 2) (some ["UrlLength"])
        ML_THRESHOLD [] = .ok ("safe", 1 / 2, "ML Model Prediction") :=
  ⟨(c5_threshold_decision (fun _ => (3 : ℚ) / 5) ["UrlLength"] ML_THRESHOLD
      [] nilUrlFeatures [0] (by decide) extract_features_nil (by decide)).1
      (by norm_num [ML_THRESHOLD]),
   (c5_threshold_decision (fun _ => (1 : ℚ) / 2) ["UrlLength"] ML_THRESHOLD
      [] nilUrlFeatures [0] (by decide) extract_features_nil (by decide)).2
      (by norm_num [ML_THRESHOLD])⟩

/-- C6 counterexample: with a configured schema that is a strict subset
of the produced keys (so the key sets mismatch), classification
completes normally instead of halting with an error, refuting the claim
that any mismatch between key set and schema is a hard error. -/
theorem c6_counterexample :
    ml_based_prediction (some fun _ => 0) (some ["UrlLength"]) ML_THRESHOLD []
      = .ok ("safe", 0, "ML Model Prediction") ∧
    (extract_features_from_url []).map (List.map Prod.fst) ≠
      .ok ["UrlLength"] := by
  constructor
  · have hv : buildVector nilUrlFeatures ["UrlLength"] = .ok [0] := by decide
    have hne : (["UrlLength"] : List String) ≠ [] := by decide
    have hnle : ¬ ML_THRESHOLD ≤ ((fun _ => (0 : ℚ)) [(0 : Int)]) := by
      norm_num [ML_THRESHOLD]
    simp only [ml_based_prediction, if_neg hne, extract_features_nil,
      except_ok_bind, hv, if_neg hnle, except_pure_eq_ok]
  · decide

/-- C6 amended: for every input on which extraction returns, the key
set it produces is exactly the fixed 48-name schema in order, and a
configured name missing from the produced mapping is surfaced as a hard
error that halts classification; extracted keys outside the configured
schema, however, are silently ignored. -/
theorem c6_amended_schema (url : List Char) (raw : List (String × Int))
    (h : extract_features_from_url url = .ok raw) :
    raw.map Prod.fst = featureSchema48 ∧
    (∀ (m : List Int → ℚ) (names : List String) (t : ℚ) (n : String),
      names ≠ [] → buildVector raw names = .error n →
      ml_based_prediction (some m) (some names) t url =
        .ok ("error", 0, missingMsg n)) := by
  cases hp : pyUrlparse url with
  | error e =>
    cases e
    rw [extract_features_error url hp] at h
    exact absurd h (by simp)
  | ok p =>
    obtain ⟨k, hk01, he⟩ := extract_features_ok url p hp
    rw [he] at h
    injection h with h
    subst h
    constructor
    · rfl
    · intro m names t n hn hv
      simp only [ml_based_prediction, if_neg hn, he, except_ok_bind, hv,
        except_pure_eq_ok]

/-- Closed instance of c6_amended_schema on the empty URL: the produced
key list is the schema, and a schema containing an unknown name makes
classification halt with the missing-feature error. -/
theorem c6_witness :
    nilUrlFeatures.map Prod.fst = featureSchema48 ∧
    ml_based_prediction (some fun _ => 0) (some ["Nope"]) ML_THRESHOLD [] =
      .ok ("error", 0, missingMsg "Nope") :=
  ⟨(c6_amended_schema [] nilUrlFeatures extract_features_nil).1,
   (c6_amended_schema [] nilUrlFeatures extract_features_nil).2
     (fun _ => 0) ["Nope"] ML_THRESHOLD "Nope" (by decide) (by decide)⟩

/-- Sanitisation only removes characters, so membership carries back to
the original URL. -/
theorem mem_of_mem_sanitizeUrl {c : Char} {url : List Char}
    (h : c ∈ sanitizeUrl url) : c ∈ url := by
  unfold sanitizeUrl at h
  exact (List.dropWhile_suffix _).subset (List.mem_of_mem_filter h)

/-- The remainder after scheme splitting is made of characters of the
input. -/
theorem mem_of_mem_splitScheme_snd {c : Char} {u : List Char}
    (h : c ∈ (splitScheme u).2) : c ∈ u := by
  simp only [splitScheme, apply_ite Prod.snd] at h
  split at h
  · exact List.drop_subset _ _ h
  · exact h

/-- A URL without square brackets always parses: the only error branch
of the parser requires a bracket inside the network location, whose
characters all come from the URL. -/
theorem pyUrlparse_ok_of_no_brackets (url : List Char)
    (h1 : '[' ∉ url) (h2 : ']' ∉ url) :
    ∃ p, pyUrlparse url = .ok p := by
  have hnet : ∀ c : Char,
      c ∈ ((splitScheme (sanitizeUrl url)).2.drop 2).takeWhile
        (fun c => ¬ netlocDelim c) → c ∈ url := by
    intro c hc
    exact mem_of_mem_sanitizeUrl (mem_of_mem_splitScheme_snd
      (List.drop_subset _ _ ((List.takeWhile_prefix _).subset hc)))
  simp only [pyUrlparse]
  split
  · rw [if_neg]
    · exact ⟨_, rfl⟩
    · rintro (⟨hin, _⟩ | ⟨hin, _⟩)
      · exact h1 (hnet _ hin)
      · exact h2 (hnet _ hin)
  · exact ⟨_, rfl⟩

/-- C7 counterexample: extraction is not total; on a URL whose
authority has an unmatched square bracket the urlparse call raises and
the exception propagates out of extraction, because the scheme check
and the other unguarded feature computations have no local handler. -/
theorem c7_counterexample :
    extract_features_from_url "http://[".toList = .error () ∧
    get_symbol_counts "http://[".toList = .error () := by
  exact ⟨by decide, by decide⟩

/-- C7 amended: extraction never raises on any URL containing no square
bracket; on such inputs every per-feature fallback applies and the full
feature list is returned. -/
theorem c7_amended_total_without_brackets (url : List Char)
    (h1 : '[' ∉ url) (h2 : ']' ∉ url) :
    ∃ fs, extract_features_from_url url = .ok fs := by
  obtain ⟨p, hp⟩ := pyUrlparse_ok_of_no_brackets url h1 h2
  obtain ⟨k, _, he⟩ := extract_features_ok url p hp
  exact ⟨_, he⟩

/-- Closed instance of c7_amended_total_without_brackets at a concrete
bracket-free URL. -/
theorem c7_witness :
    ('[' ∉ "http://x.com/a".toList ∧ ']' ∉ "http://x.com/a".toList) ∧
    ∃ fs, extract_features_from_url "http://x.com/a".toList = .ok fs :=
  ⟨⟨by decide, by decide⟩,
   c7_amended_total_without_brackets "http://x.com/a".toList
     (by decide) (by decide)⟩

/-- C8: evaluation at inputs with an empty parsed host: the
DomainInSubdomains flag is 0 as claimed, but DomainInPaths evaluates to
1 for the URL nohost and for the empty string, because the base domain
slice of an empty host is the empty string, which is a substring of
every path. -/
theorem c8_empty_host_eval :
    pyUrlparse "nohost".toList = .ok ⟨[], [], "nohost".toList, [], [], []⟩ ∧
    check_domain_in_paths "nohost".toList = 1 ∧
    check_domain_in_subdomains "nohost".toList = 0 ∧
    check_domain_in_paths [] = 1 := by
  exact ⟨by decide, by decide, by decide, by decide⟩

set_option maxHeartbeats 2000000 in
/-- C9: invariant of every extracted feature vector: each placeholder
(content-based or real-time) feature carries the sentinel -1 regardless
of the URL, and every genuinely computed feature value is nonnegative,
so the sentinel never collides with a computed value. -/
theorem c9_placeholder_sentinel_invariant (url : List Char)
    (fs : List (String × Int))
    (h : extract_features_from_url url = .ok fs) :
    ∀ pr ∈ fs, (pr.1 ∈ placeholderNames → pr.2 = -1) ∧
               (pr.1 ∉ placeholderNames → 0 ≤ pr.2) := by
  cases hp : pyUrlparse url with
  | error e =>
    cases e
    rw [extract_features_error url hp] at h
    exact absurd h (by simp)
  | ok p =>
    obtain ⟨k, hk01, he⟩ := extract_features_ok url p hp
    rw [he] at h
    injection h with h
    subst h
    intro pr hpr
    fin_cases hpr <;> dsimp only <;>
      first
        | exact ⟨fun _ => rfl, fun hmem => absurd (by decide) hmem⟩
        | refine ⟨fun hmem => absurd hmem (by decide), fun _ => ?_⟩ <;>
            first
              | exact get_url_length_nonneg url
              | exact get_num_dots_nonneg url
              | exact get_subdomain_level_nonneg url
              | exact get_path_level_nonneg url
              | exact get_num_numeric_chars_nonneg url
              | exact get_num_sensitive_words_nonneg url
              | exact check_domain_in_subdomains_nonneg url
              | exact check_domain_in_paths_nonneg url
              | exact ite_01_nonneg _
              | exact Int.natCast_nonneg _
              | omega

/-- Closed instance of c9_placeholder_sentinel_invariant on the empty
URL and its recorded feature list. -/
theorem c9_witness :
    extract_features_from_url [] = .ok nilUrlFeatures ∧
    ∀ pr ∈ nilUrlFeatures,
      (pr.1 ∈ placeholderNames → pr.2 = -1) ∧
      (pr.1 ∉ placeholderNames → 0 ≤ pr.2) :=
  ⟨extract_features_nil,
   c9_placeholder_sentinel_invariant [] nilUrlFeatures extract_features_nil⟩

/-- C10: relation between the query features: whenever the parsed query
is non-empty the component count is the ampersand count plus one, and
when the query is empty both counts are zero. -/
theorem c10_query_component_relation (url : List Char) (p : ParsedUrl)
    (hp : pyUrlparse url = .ok p) :
    ∃ nqc : Int, get_query_and_fragment_info url = .ok
        [("NumQueryComponents", nqc),
         ("NumAmpersand", (p.query.count '&' : Int)),
         ("NumHash", if p.fragment = [] then 0 else 1)] ∧
      (p.query ≠ [] → nqc = (p.query.count '&' : Int) + 1) ∧
      (p.query = [] → nqc = 0 ∧ p.query.count '&' = 0) := by
  refine ⟨if p.query = [] then 0
          else ((splitOnPred (· = '&') p.query).length : Int), ?_, ?_, ?_⟩
  · simp only [get_query_and_fragment_info, hp, except_ok_bind,
      except_pure_eq_ok]
  · intro hq
    rw [if_neg hq, splitOnPred_length, count_eq_countP]
    push_cast
    ring
  · intro hq
    rw [if_pos hq]
    exact ⟨rfl, by simp [hq]⟩

/-- Closed instance of c10_query_component_relation at a URL with a
two-component query. -/
theorem c10_witness :
    pyUrlparse "http://a.com/p?x=1&y=2".toList =
      .ok ⟨"http".toList, "a.com".toList, "/p".toList, [],
           "x=1&y=2".toList, []⟩ ∧
    ∃ nqc : Int, get_query_and_fragment_info "http://a.com/p?x=1&y=2".toList
        = .ok [("NumQueryComponents", nqc),
               ("NumAmpersand", ("x=1&y=2".toList.count '&' : Int)),
               ("NumHash", if ([] : List Char) = [] then 0 else 1)] ∧
      ("x=1&y=2".toList ≠ [] →
        nqc = ("x=1&y=2".toList.count '&' : Int) + 1) ∧
      ("x=1&y=2".toList = [] →
        nqc = 0 ∧ "x=1&y=2".toList.count '&' = 0) :=
  ⟨by decide,
   c10_query_component_relation "http://a.com/p?x=1&y=2".toList
     ⟨"http".toList, "a.com".toList, "/p".toList, [], "x=1&y=2".toList, []⟩
     (by decide)⟩

end Phish
